import Mathlib

/-!
Shallow embedding of the musical-doodle remote music player: a client sends
one JSON-encoded command over a websocket to a server whose single worker
thread processes requests one at a time and routes each response back to the
originating connection.  The pure data and control logic is translated from
the Rust source (`src/common.rs`, `src/server.rs`, `src/cmdline.rs`,
`src/client.rs`).  The websocket transport is abstracted: a `ws::Sender`
becomes an opaque handle identifier (`Nat`, where cloned handles share the
same identifier), and effectful operations (sending a frame, closing a
connection, sleeping, shutting the event loop down) are modelled as emitted
event lists in program order.
-/

namespace MusicalDoodle

namespace common

/-- Model of `struct PlayReq;` (common.rs:8), the unit payload of
`Request::Play`. -/
inductive PlayReq
  | mk
  deriving DecidableEq, Repr

/-- Model of `enum Request` (common.rs:11-15). -/
inductive Request
  | Play (play_info : PlayReq)
  | Shutdown
  deriving DecidableEq, Repr

/-- Model of `enum Response` (common.rs:17-20). -/
inductive Response
  | Ok
  deriving DecidableEq, Repr

/-- Model of `enum Message` (common.rs:22-26), the wire unit. -/
inductive Message
  | Request (r : Request)
  | Response (r : Response)
  deriving DecidableEq, Repr

/-- Whether a request is a `Play` request. -/
def Request.isPlay : Request → Bool
  | .Play _ => true
  | .Shutdown => false

/-- Model of `struct ConnId(u64)` (common.rs:41): connection identifier. -/
abbrev ConnId := Nat

/-- Model of `struct ServerRequest(Request, ConnId, ws::Sender)`
(common.rs:28): the tuple the listener forwards to the server worker loop.
The `ws::Sender` is the opaque handle `sender : Nat`. -/
structure ServerRequest where
  request : Request
  conn_id : ConnId
  sender : Nat
  deriving DecidableEq, Repr

/-- Model of `enum WSMsg` (common.rs:63-72), the client-side mailbox event.
The `ws::Error` payloads are abstracted to strings. -/
inductive WSMsg
  | Open
  | Message (m : Message)
  | Timeout
  | Shutdown
  | Close (code : Nat) (reason : String)
  | Error (err : String)
  | InitError (err : String)
  deriving DecidableEq, Repr

/-!
JSON wire format.  `serde_json::to_string` on the derived `Serialize` impls
produces the externally-tagged encoding: a unit variant is its name as a JSON
string, a newtype variant is a one-key object, and the unit struct `PlayReq`
is `null`.  The serializers mirror the fallible `serde::Serialize` signatures
(`Except String`), although no branch of the derived implementations for
these types can fail.
-/

/-- Serialization of `PlayReq` (derived `Serialize`): a unit struct encodes
as `null`. -/
def serialize_play_req (_ : PlayReq) : Except String String :=
  .ok "null"

/-- Serialization of `Request` (derived `Serialize`, externally tagged). -/
def serialize_request : Request → Except String String
  | .Play play_info =>
    match serialize_play_req play_info with
    | .ok inner => .ok ("\x7b\"Play\":" ++ inner ++ "\x7d")
    | .error e => .error e
  | .Shutdown => .ok "\"Shutdown\""

/-- Serialization of `Response` (derived `Serialize`, externally tagged). -/
def serialize_response : Response → Except String String
  | .Ok => .ok "\"Ok\""

/-- Model of `serde_json::to_string::<Message>` with the derived `Serialize`
impls (externally tagged encoding). -/
def to_string : Message → Except String String
  | .Request r =>
    match serialize_request r with
    | .ok inner => .ok ("\x7b\"Request\":" ++ inner ++ "\x7d")
    | .error e => .error e
  | .Response r =>
    match serialize_response r with
    | .ok inner => .ok ("\x7b\"Response\":" ++ inner ++ "\x7d")
    | .error e => .error e

/-- Skip JSON whitespace. -/
def skipWs : List Char → List Char
  | [] => []
  | c :: rest =>
    if c = ' ' ∨ c = '\t' ∨ c = '\n' ∨ c = '\r' then skipWs rest else c :: rest

/-- Consume an expected literal token, returning the remaining input. -/
def expectLit : List Char → List Char → Option (List Char)
  | [], s => some s
  | _ :: _, [] => none
  | l :: ls, c :: cs => if c = l then expectLit ls cs else none

/-- Deserialization of `PlayReq` (derived `Deserialize`): a unit struct
accepts `null`. -/
def parsePlayReq (s : List Char) : Option (PlayReq × List Char) :=
  match expectLit "null".data (skipWs s) with
  | some rest => some (PlayReq.mk, rest)
  | none => none

/-- Deserialization of `Request` (derived `Deserialize`, externally tagged):
either the string form of the unit variant `Shutdown` or the one-key object
form of the newtype variant `Play`. -/
def parseRequest (s : List Char) : Option (Request × List Char) :=
  let s0 := skipWs s
  match expectLit "\"Shutdown\"".data s0 with
  | some rest => some (Request.Shutdown, rest)
  | none =>
    match expectLit "\x7b".data s0 with
    | none => none
    | some s1 =>
      match expectLit "\"Play\"".data (skipWs s1) with
      | none => none
      | some s2 =>
        match expectLit ":".data (skipWs s2) with
        | none => none
        | some s3 =>
          match parsePlayReq s3 with
          | none => none
          | some (p, s4) =>
            match expectLit "\x7d".data (skipWs s4) with
            | none => none
            | some s5 => some (Request.Play p, s5)

/-- Deserialization of `Response` (derived `Deserialize`, externally tagged):
the string form of the unit variant `Ok`. -/
def parseResponse (s : List Char) : Option (Response × List Char) :=
  match expectLit "\"Ok\"".data (skipWs s) with
  | some rest => some (Response.Ok, rest)
  | none => none

/-- Deserialization of a `Message` value (derived `Deserialize`, externally
tagged): a one-key object tagged `Request` or `Response`. -/
def parseMessage (s : List Char) : Option (Message × List Char) :=
  match expectLit "\x7b".data (skipWs s) with
  | none => none
  | some s1 =>
    let s2 := skipWs s1
    match expectLit "\"Request\"".data s2 with
    | some s3 =>
      match expectLit ":".data (skipWs s3) with
      | none => none
      | some s4 =>
        match parseRequest s4 with
        | none => none
        | some (r, s5) =>
          match expectLit "\x7d".data (skipWs s5) with
          | none => none
          | some s6 => some (Message.Request r, s6)
    | none =>
      match expectLit "\"Response\"".data s2 with
      | none => none
      | some s3 =>
        match expectLit ":".data (skipWs s3) with
        | none => none
        | some s4 =>
          match parseResponse s4 with
          | none => none
          | some (r, s5) =>
            match expectLit "\x7d".data (skipWs s5) with
            | none => none
            | some s6 => some (Message.Response r, s6)

/-- Model of `serde_json::from_str::<Message>`: parse one JSON `Message`
value and require that only whitespace remains. -/
def from_str (s : String) : Option Message :=
  match parseMessage s.data with
  | none => none
  | some (m, rest) => if skipWs rest = [] then some m else none

/-- Outcome of `send_json_message` (common.rs:85-90): either the serialized
frame was handed to `sender.send`, or `serde_json::to_string` failed and the
`unwrap_or_else` branch panicked. -/
inductive SendOutcome
  | sent (frame : String)
  | panicked
  deriving DecidableEq, Repr

/-- Model of `common::send_json_message` (common.rs:85-90): serialize the
message and send the resulting frame on the given handle; on serialization
failure the code panics. -/
def send_json_message (message : Message) : SendOutcome :=
  match to_string message with
  | .ok serialized => .sent serialized
  | .error _ => .panicked

end common

namespace server

open common

/-- Observable effects of the server worker loop, in program order:
`sent h m` is `common::send_json_message(&m, &h)` on handle `h`;
`closed h` is `h.close(ws::CloseCode::Normal)`; `slept` is the
1 ms `thread::sleep` before the event-loop shutdown; `wsShutdown h` is
`h.shutdown()`, stopping the whole websocket event loop; `panicked` marks the
`.expect("shutdown without any connection")` panic. -/
inductive SEvent
  | sent (sender : Nat) (m : Message)
  | closed (sender : Nat)
  | slept
  | wsShutdown (sender : Nat)
  | panicked
  deriving DecidableEq, Repr

/-- Whether an event is a response frame handed to a send-handle. -/
def SEvent.isSent : SEvent → Bool
  | .sent _ _ => true
  | _ => false

/-- Model of `struct Connections` (server.rs:78-81): the connection identity
allocator.  The Rust field is a `u64`, so the increment wraps modulo 2^64. -/
structure Connections where
  next_conn_id : Nat
  deriving DecidableEq, Repr

/-- Model of `Connections::new()` (server.rs:84-86): `Default` gives 0. -/
def Connections.new : Connections := { next_conn_id := 0 }

/-- Model of the method `Connections::next_conn_id` (server.rs:88-92):
return the current counter and increment it (wrapping `u64` arithmetic). -/
def Connections.nextConnId (c : Connections) : Nat × Connections :=
  (c.next_conn_id, { next_conn_id := (c.next_conn_id + 1) % 2 ^ 64 })

/-- The allocator state after `n` calls to `next_conn_id` starting from
`Connections::new()`. -/
def Connections.stateAfter : Nat → Connections
  | 0 => Connections.new
  | n + 1 => ((Connections.stateAfter n).nextConnId).2

/-- The identifier returned by the `n`-th (0-indexed) call to
`next_conn_id` starting from `Connections::new()`. -/
def Connections.nthId (n : Nat) : Nat :=
  ((Connections.stateAfter n).nextConnId).1

/-- Model of `struct CallCompletion` (server.rs:95-99): the originating
connection's identity paired with its send-handle. -/
structure CallCompletion where
  conn_id : ConnId
  sender : Nat
  deriving DecidableEq, Repr

/-- Model of `struct ResponseWrapper` (server.rs:101-105). -/
structure ResponseWrapper where
  response : Response
  shutdown : Bool
  deriving DecidableEq, Repr

/-- Model of `ResponseWrapper::new` (server.rs:114-119): shutdown flag unset. -/
def ResponseWrapper.new (response : Response) : ResponseWrapper :=
  { response := response, shutdown := false }

/-- Model of `ResponseWrapper::with_shutdown` (server.rs:120-123). -/
def ResponseWrapper.with_shutdown (w : ResponseWrapper) : ResponseWrapper :=
  { w with shutdown := true }

/-- Model of `CallCompletion::complete` (server.rs:126-140): send the
response on the captured handle (send failure is logged, not modelled), then,
only when the shutdown flag is set, close that same handle. -/
def CallCompletion.complete (cc : CallCompletion) (resp : ResponseWrapper) :
    List SEvent :=
  [SEvent.sent cc.sender (Message.Response resp.response)] ++
    (if resp.shutdown then [SEvent.closed cc.sender] else [])

/-- Model of `struct PlayerThread` state (server.rs:182-189); the channel
endpoints are represented by the request list `run` consumes. -/
structure PlayerThread where
  currently_playing : Option String
  shutdown : Bool
  deriving DecidableEq, Repr

/-- Model of `PlayerThread::new` (server.rs:192-202). -/
def PlayerThread.new : PlayerThread :=
  { currently_playing := none, shutdown := false }

/-- Model of `PlayerThread::play` (server.rs:217-221): complete with
`Response::Ok.into()` (shutdown flag unset); state unchanged. -/
def PlayerThread.play (st : PlayerThread) (_play_info : PlayReq)
    (call_completion : CallCompletion) : PlayerThread × List SEvent :=
  (st, call_completion.complete (ResponseWrapper.new Response.Ok))

/-- Model of `PlayerThread::on_remote_call` (server.rs:204-215). -/
def PlayerThread.on_remote_call (st : PlayerThread) (request : Request)
    (call_completion : CallCompletion) : PlayerThread × List SEvent :=
  match request with
  | .Play play_info => st.play play_info call_completion
  | .Shutdown =>
    ({ st with shutdown := true },
     call_completion.complete ((ResponseWrapper.new Response.Ok).with_shutdown))

/-- The `ws_sender` update at the top of each `run` iteration
(server.rs:227-229): remember the first request's handle. -/
def updateWs (ws : Option Nat) (r : ServerRequest) : Option Nat :=
  match ws with
  | none => some r.sender
  | some s => some s

/-- Model of the loop body of `PlayerThread::run` (server.rs:223-242) over the
queued `ServerRequest` tuples: process one tuple, and once the shutdown flag
is set, sleep, shut the websocket event loop down via the remembered first
handle (`.expect` panics when it is absent), and exit without touching the
remaining queue. -/
def PlayerThread.runLoop : PlayerThread → Option Nat → List ServerRequest →
    List SEvent
  | _, _, [] => []
  | st, ws, r :: rest =>
    let ws2 := updateWs ws r
    let step := st.on_remote_call r.request
      { conn_id := r.conn_id, sender := r.sender }
    if step.1.shutdown then
      step.2 ++ [SEvent.slept] ++
        (match ws2 with
         | some s => [SEvent.wsShutdown s]
         | none => [SEvent.panicked])
    else
      step.2 ++ PlayerThread.runLoop step.1 ws2 rest

/-- Model of `PlayerThread::run` (server.rs:223-242) from the freshly spawned
state (server.rs:262). -/
def PlayerThread.run (reqs : List ServerRequest) : List SEvent :=
  PlayerThread.runLoop PlayerThread.new none reqs

/-- Outcome of `IncomingComm::on_message` (server.rs:42-47): either the
decoded message is handed to `handler.on_remote_call` together with the
connection's identity and send-handle, or `serde_json::from_str(..).unwrap()`
panicked, unwinding the single websocket event-loop (listener) thread. -/
inductive OnMessageOutcome
  | handled (m : Message) (conn : ConnId)
  | panicked
  deriving DecidableEq, Repr

/-- Model of `IncomingComm::on_message` (server.rs:42-47) for the connection
with identifier `id` receiving the text frame `frame`. -/
def IncomingComm.on_message (id : Nat) (frame : String) : OnMessageOutcome :=
  match from_str frame with
  | some decoded_msg => .handled decoded_msg id
  | none => .panicked

end server

namespace cmdline

/-- Model of `enum Music` (cmdline.rs:5-15). -/
inductive Music
  | Song (songs : List String)
  | Playlist (playlist : String)
  | AllSongs
  deriving DecidableEq, Repr

/-- Model of `struct Play` (cmdline.rs:17-27); the `repeat` flag is renamed
`repeated` (`repeat` is reserved in Lean). -/
structure Play where
  shuffled : Bool
  repeated : Bool
  command : Option Music
  deriving DecidableEq, Repr

/-- Model of `struct Queue` (cmdline.rs:29-36). -/
structure Queue where
  shuffled : Bool
  command : Music
  deriving DecidableEq, Repr

/-- Model of `enum ClientCommand` (cmdline.rs:38-54). -/
inductive ClientCommand
  | Play (p : Play)
  | Queue (q : Queue)
  | Pause
  | Status
  | Shutdown
  deriving DecidableEq, Repr

/-- The reserved commands: those that `make_message` rejects as not
implemented. -/
def ClientCommand.isUnimplemented : ClientCommand → Bool
  | .Pause | .Queue _ | .Status => true
  | .Play _ | .Shutdown => false

/-- Model of `struct Client` (cmdline.rs:56-60): the parsed client
subcommand. -/
structure Client where
  command : ClientCommand
  deriving DecidableEq, Repr

end cmdline

namespace client

open common

/-- Model of `enum ClientError` (client.rs:13-26); opaque error payloads are
abstracted to strings. -/
inductive ClientError
  | IoError (e : String)
  | JsonError (e : String)
  | MpscRecvError
  | NoOpen (m : WSMsg)
  | SocketError (e : String)
  | UnexpectedResponse (m : WSMsg)
  | UrlError (e : String)
  | Generic (s : String)
  deriving DecidableEq, Repr

/-- Observable effects of the client main flow, in program order:
`connected` is the successful return of `Client::new` (the connection
object and its background thread exist); `sentFrame f` is a serialized frame
handed to the websocket send-handle; `panicAborted` marks the panic inside
`send_json_message` (client.rs:124-129). -/
inductive CEffect
  | connected
  | sentFrame (frame : String)
  | panicAborted
  deriving DecidableEq, Repr

/-- Model of `Client::send` (client.rs:136-142): `sender` is the shared
`Arc<Mutex<Option<ws::Sender>>>` slot at call time, installed only by the
builder closure once the websocket is set up (client.rs:184-193).  When the
slot is still `None` the call returns `Ok(())` without sending anything;
otherwise the message is serialized and the frame handed to the handle
(a transport that accepts the frame is assumed; the serialization-failure
panic is propagated). -/
def Client.send (sender : Option Nat) (message : Message) :
    Except ClientError Unit × List CEffect :=
  match sender with
  | none => (.ok (), [])
  | some _ =>
    match send_json_message message with
    | .sent frame => (.ok (), [CEffect.sentFrame frame])
    | .panicked => (.ok (), [CEffect.panicAborted])

/-- Model of `make_message` (client.rs:224-232): build the request message
for the parsed command, rejecting the reserved commands with a
`Generic("Not Implemented")` error. -/
def make_message (command : cmdline.Client) : Except ClientError Message :=
  match command.command with
  | .Play _ => .ok (Message.Request (Request.Play PlayReq.mk))
  | .Pause | .Queue _ | .Status => .error (.Generic "Not Implemented")
  | .Shutdown => .ok (Message.Request Request.Shutdown)

/-- Model of `client::main` (client.rs:234-255).  The network is abstracted:
`events` is the sequence of `WSMsg` values the mailbox delivers to
`Client::recv` (an empty remainder models a closed channel, i.e.
`MpscRecvError`), and `sender` is the contents of the shared send-handle slot
when `Client::send` runs.  `Client::new` itself is modelled as succeeding and
is recorded as the `connected` effect; it happens only after `make_message`
has succeeded. -/
def main (command : cmdline.Client) (sender : Option Nat)
    (events : List WSMsg) : Except ClientError Unit × List CEffect :=
  match make_message command with
  | .error e => (.error e, [])
  | .ok message =>
    match events with
    | [] => (.error .MpscRecvError, [CEffect.connected])
    | e :: rest =>
      match e with
      | .Open =>
        match Client.send sender message with
        | (.error e2, effs) => (.error e2, CEffect.connected :: effs)
        | (.ok _, effs) =>
          match rest with
          | [] => (.error .MpscRecvError, CEffect.connected :: effs)
          | rsp :: _ =>
            match rsp with
            | .Message (Message.Response _) => (.ok (), CEffect.connected :: effs)
            | other =>
              (.error (.UnexpectedResponse other), CEffect.connected :: effs)
      | connect_rsp => (.error (.NoOpen connect_rsp), [CEffect.connected])

end client

namespace server

open common

theorem Connections.stateAfter_val (n : Nat) :
    (Connections.stateAfter n).next_conn_id = n % 2 ^ 64 := by
  induction n with
  | zero => rfl
  | succ n ih =>
    have h1 : (1 : Nat) % 2 ^ 64 = 1 := by norm_num
    simp only [Connections.stateAfter, Connections.nextConnId, ih]
    rw [Nat.add_mod n 1, h1]

theorem Connections.nthId_eq (n : Nat) : Connections.nthId n = n % 2 ^ 64 := by
  simp only [Connections.nthId, Connections.nextConnId,
    Connections.stateAfter_val]

theorem updateWs_eq (ws : Option Nat) (r : ServerRequest) :
    updateWs ws r = some (ws.getD r.sender) := by
  cases ws <;> rfl

theorem runLoop_cons_play (st : PlayerThread) (ws : Option Nat)
    (r : ServerRequest) (rest : List ServerRequest) (p : PlayReq)
    (hp : r.request = Request.Play p) (hsd : st.shutdown = false) :
    PlayerThread.runLoop st ws (r :: rest) =
      SEvent.sent r.sender (Message.Response Response.Ok) ::
        PlayerThread.runLoop st (updateWs ws r) rest := by
  simp [PlayerThread.runLoop, hp, PlayerThread.on_remote_call,
    PlayerThread.play, CallCompletion.complete, ResponseWrapper.new, hsd]

theorem runLoop_cons_shutdown (st : PlayerThread) (ws : Option Nat)
    (r : ServerRequest) (rest : List ServerRequest)
    (hp : r.request = Request.Shutdown) :
    PlayerThread.runLoop st ws (r :: rest) =
      [SEvent.sent r.sender (Message.Response Response.Ok),
       SEvent.closed r.sender, SEvent.slept,
       SEvent.wsShutdown (ws.getD r.sender)] := by
  simp [PlayerThread.runLoop, hp, PlayerThread.on_remote_call,
    CallCompletion.complete, ResponseWrapper.new,
    ResponseWrapper.with_shutdown, updateWs_eq]

theorem runLoop_all_play (reqs : List ServerRequest) :
    ∀ (st : PlayerThread) (ws : Option Nat), st.shutdown = false →
    (∀ r ∈ reqs, r.request.isPlay = true) →
    PlayerThread.runLoop st ws reqs =
      reqs.map (fun r => SEvent.sent r.sender (Message.Response Response.Ok)) := by
  induction reqs with
  | nil => intro st ws _ _; rfl
  | cons r rest ih =>
    intro st ws hsd hall
    have hr : r.request.isPlay = true := hall r (List.mem_cons_self r rest)
    obtain ⟨p, hp⟩ : ∃ p, r.request = Request.Play p := by
      cases hreq : r.request with
      | Play p => exact ⟨p, rfl⟩
      | Shutdown => rw [hreq] at hr; simp [Request.isPlay] at hr
    rw [runLoop_cons_play st ws r rest p hp hsd,
      ih st (updateWs ws r) hsd (fun q hq => hall q (List.mem_cons_of_mem r hq))]
    rfl

theorem runLoop_sent_origin (reqs : List ServerRequest) :
    ∀ (st : PlayerThread) (ws : Option Nat) (s : Nat) (m : Message),
    st.shutdown = false →
    SEvent.sent s m ∈ PlayerThread.runLoop st ws reqs →
    ∃ r, r ∈ reqs ∧ s = r.sender ∧ m = Message.Response Response.Ok := by
  induction reqs with
  | nil => intro st ws s m _ h; simp [PlayerThread.runLoop] at h
  | cons r rest ih =>
    intro st ws s m hsd h
    cases hreq : r.request with
    | Play p =>
      rw [runLoop_cons_play st ws r rest p hreq hsd] at h
      rcases List.mem_cons.mp h with h1 | h2
      · injection h1 with hs hm
        exact ⟨r, List.mem_cons_self r rest, hs, hm⟩
      · obtain ⟨q, hq, hqs, hqm⟩ := ih st (updateWs ws r) s m hsd h2
        exact ⟨q, List.mem_cons_of_mem r hq, hqs, hqm⟩
    | Shutdown =>
      rw [runLoop_cons_shutdown st ws r rest hreq] at h
      simp only [List.mem_cons, List.not_mem_nil, or_false] at h
      rcases h with h1 | h1 | h1 | h1
      · injection h1 with hs hm
        exact ⟨r, List.mem_cons_self r rest, hs, hm⟩
      · exact SEvent.noConfusion h1
      · exact SEvent.noConfusion h1
      · exact SEvent.noConfusion h1

theorem runLoop_sent_count (reqs : List ServerRequest) :
    ∀ (st : PlayerThread) (ws : Option Nat), st.shutdown = false →
    (PlayerThread.runLoop st ws reqs).countP (fun e => e.isSent) ≤ reqs.length := by
  induction reqs with
  | nil => intro st ws _; simp [PlayerThread.runLoop]
  | cons r rest ih =>
    intro st ws hsd
    cases hreq : r.request with
    | Play p =>
      rw [runLoop_cons_play st ws r rest p hreq hsd]
      have hih := ih st (updateWs ws r) hsd
      simp [List.countP_cons, SEvent.isSent] at hih ⊢
      omega
    | Shutdown =>
      rw [runLoop_cons_shutdown st ws r rest hreq]
      simp [List.countP_cons, SEvent.isSent]

/-- The send-handle remembered by `run` when the loop starts with `pre`
already queued: the first queued request's handle, or `s` when `pre` is
empty. -/
def firstWs (pre : List ServerRequest) (s : Nat) : Nat :=
  match pre with
  | [] => s
  | r :: _ => r.sender

theorem runLoop_shutdown_trace (pre : List ServerRequest) :
    ∀ (st : PlayerThread) (ws : Option Nat) (c s : Nat)
      (rest : List ServerRequest), st.shutdown = false →
    (∀ r ∈ pre, r.request.isPlay = true) →
    PlayerThread.runLoop st ws
        (pre ++ { request := Request.Shutdown, conn_id := c, sender := s } :: rest) =
      pre.map (fun r => SEvent.sent r.sender (Message.Response Response.Ok)) ++
        [SEvent.sent s (Message.Response Response.Ok), SEvent.closed s,
         SEvent.slept, SEvent.wsShutdown (ws.getD (firstWs pre s))] := by
  induction pre with
  | nil =>
    intro st ws c s rest hsd _
    simpa using runLoop_cons_shutdown st ws
      { request := Request.Shutdown, conn_id := c, sender := s } rest rfl
  | cons r pre2 ih =>
    intro st ws c s rest hsd hall
    have hr : r.request.isPlay = true := hall r (List.mem_cons_self r pre2)
    obtain ⟨p, hp⟩ : ∃ p, r.request = Request.Play p := by
      cases hreq : r.request with
      | Play p => exact ⟨p, rfl⟩
      | Shutdown => rw [hreq] at hr; simp [Request.isPlay] at hr
    rw [List.cons_append, runLoop_cons_play st ws r _ p hp hsd,
      ih st (updateWs ws r) c s rest hsd
        (fun q hq => hall q (List.mem_cons_of_mem r hq))]
    simp [updateWs_eq, firstWs]

end server

/-- C1: every Request the server worker loop consumes is answered by at most
one Response (the loop never produces more response frames than queued
requests), every response frame is sent on the send-handle paired with the
originating request's ConnectionId (never another connection's handle), and
for a queue of N Play requests exactly N responses are produced, the i-th on
the i-th request's own handle. -/
theorem c1_worker_loop_response_routing (reqs : List common.ServerRequest) :
    ((server.PlayerThread.run reqs).countP (fun e => e.isSent) ≤ reqs.length)
    ∧ (∀ (s : Nat) (m : common.Message),
        server.SEvent.sent s m ∈ server.PlayerThread.run reqs →
        ∃ r, r ∈ reqs ∧ s = r.sender ∧ m = common.Message.Response common.Response.Ok)
    ∧ ((∀ r ∈ reqs, r.request.isPlay = true) →
        server.PlayerThread.run reqs =
          reqs.map (fun r =>
            server.SEvent.sent r.sender (common.Message.Response common.Response.Ok))) := by
  refine ⟨?_, ?_, ?_⟩
  · exact server.runLoop_sent_count reqs server.PlayerThread.new none rfl
  · intro s m h
    exact server.runLoop_sent_origin reqs server.PlayerThread.new none s m rfl h
  · intro hall
    exact server.runLoop_all_play reqs server.PlayerThread.new none rfl hall

/-- C1 witness: two Play requests from connections 0 and 1 yield exactly two
responses, each on its own connection's handle. -/
theorem c1_worker_loop_response_routing_witness :
    server.PlayerThread.run
        [{ request := .Play .mk, conn_id := 0, sender := 0 },
         { request := .Play .mk, conn_id := 1, sender := 1 }] =
      [server.SEvent.sent 0 (common.Message.Response common.Response.Ok),
       server.SEvent.sent 1 (common.Message.Response common.Response.Ok)] :=
  (c1_worker_loop_response_routing _).2.2 (by decide)

/-- C2 counterexample: queue a Play from connection 0 (handle 0) before the
Shutdown from connection 1 (handle 1).  Connection 1's transport is closed
immediately after its response, before the delay (`slept`); the only close
issued after the delay is `ws_sender.shutdown()` on handle 0 — the first
processed request's handle, not the shutdown connection's handle 1. -/
theorem c2_shutdown_close_counterexample :
    server.PlayerThread.run
        [{ request := .Play .mk, conn_id := 0, sender := 0 },
         { request := .Shutdown, conn_id := 1, sender := 1 }] =
      [server.SEvent.sent 0 (common.Message.Response common.Response.Ok),
       server.SEvent.sent 1 (common.Message.Response common.Response.Ok),
       server.SEvent.closed 1, server.SEvent.slept,
       server.SEvent.wsShutdown 0]
    ∧ (0 : Nat) ≠ 1 := by decide

/-- C2 amended: when the worker loop processes a `Request::Shutdown` after
any number of Play requests, it sends `Response::Ok` on that connection's
handle and then closes that connection's transport, both before the delay;
after the delay it shuts the whole websocket event loop down via the
send-handle of the first request the loop processed; and the loop exits, so
no still-queued request (`rest`) is processed afterwards. -/
theorem c2_shutdown_ordering_amended (pre : List common.ServerRequest)
    (c s : Nat) (rest : List common.ServerRequest)
    (hpre : ∀ r ∈ pre, r.request.isPlay = true) :
    server.PlayerThread.run
        (pre ++ { request := .Shutdown, conn_id := c, sender := s } :: rest) =
      pre.map (fun r =>
        server.SEvent.sent r.sender (common.Message.Response common.Response.Ok)) ++
        [server.SEvent.sent s (common.Message.Response common.Response.Ok),
         server.SEvent.closed s, server.SEvent.slept,
         server.SEvent.wsShutdown (server.firstWs pre s)] := by
  have h := server.runLoop_shutdown_trace pre server.PlayerThread.new none c s
    rest rfl hpre
  simpa using h

/-- C2 amended witness: the concrete two-connection trace. -/
theorem c2_shutdown_ordering_amended_witness :
    server.PlayerThread.run
        [{ request := .Play .mk, conn_id := 0, sender := 0 },
         { request := .Shutdown, conn_id := 1, sender := 1 }] =
      [server.SEvent.sent 0 (common.Message.Response common.Response.Ok),
       server.SEvent.sent 1 (common.Message.Response common.Response.Ok),
       server.SEvent.closed 1, server.SEvent.slept,
       server.SEvent.wsShutdown 0] :=
  c2_shutdown_ordering_amended
    [{ request := .Play .mk, conn_id := 0, sender := 0 }] 1 1 [] (by decide)

/-- C3 counterexample: the allocator's `u64` counter wraps, so the call with
0-indexed position 2^64 returns 0 — the same identifier the 0-th call
returned — rather than 2^64. -/
theorem c3_conn_id_wraparound_counterexample :
    server.Connections.nthId (2 ^ 64) = 0 ∧ server.Connections.nthId 0 = 0
    ∧ (0 : Nat) ≠ 2 ^ 64 := by
  refine ⟨?_, rfl, by norm_num⟩
  rw [server.Connections.nthId_eq, Nat.mod_self]

/-- C3 amended: for every 0-indexed position `i < 2^64`, the i-th call to
`next_conn_id` on a fresh allocator returns `i`; hence over the first 2^64
calls the identifiers start at 0, are strictly increasing, and no identifier
is returned twice (the `u64` counter wraps only after 2^64 calls). -/
theorem c3_conn_id_allocation_amended (i j : Nat) (hi : i < 2 ^ 64)
    (hj : j < 2 ^ 64) :
    server.Connections.nthId i = i
    ∧ (i ≠ j → server.Connections.nthId i ≠ server.Connections.nthId j) := by
  have h1 : server.Connections.nthId i = i := by
    rw [server.Connections.nthId_eq, Nat.mod_eq_of_lt hi]
  have h2 : server.Connections.nthId j = j := by
    rw [server.Connections.nthId_eq, Nat.mod_eq_of_lt hj]
  refine ⟨h1, fun hne => ?_⟩
  rw [h1, h2]
  exact hne

/-- C3 amended witness: calls 3 and 5 on a fresh allocator. -/
theorem c3_conn_id_allocation_amended_witness :
    server.Connections.nthId 3 = 3
    ∧ (3 ≠ 5 → server.Connections.nthId 3 ≠ server.Connections.nthId 5) :=
  c3_conn_id_allocation_amended 3 5 (by decide) (by decide)

/-- C4 counterexample: the frame `garbage` does not decode as a JSON
`Message`, and `IncomingComm::on_message` then panics
(`serde_json::from_str(..).unwrap()`), unwinding the single websocket
event-loop thread — the failure is not isolated to the one connection. -/
theorem c4_decode_error_counterexample :
    common.from_str "garbage" = none
    ∧ server.IncomingComm.on_message 0 "garbage" =
        server.OnMessageOutcome.panicked := by decide

/-- C4 amended: every inbound frame that does not decode as a valid JSON
`Message` makes the per-connection handler panic on the `unwrap`, which
unwinds the shared websocket event-loop (listener) thread, rather than being
reported and dropped with only that connection affected. -/
theorem c4_decode_error_amended (id : Nat) (frame : String)
    (h : common.from_str frame = none) :
    server.IncomingComm.on_message id frame =
      server.OnMessageOutcome.panicked := by
  simp [server.IncomingComm.on_message, h]

/-- C4 amended witness: a malformed frame on connection 7. -/
theorem c4_decode_error_amended_witness :
    server.IncomingComm.on_message 7 "not json" =
      server.OnMessageOutcome.panicked :=
  c4_decode_error_amended 7 "not json" (by decide)

/-- C5: serializing any `Message` value to its JSON wire string and
deserializing that string yields the original value. -/
theorem c5_message_roundtrip (m : common.Message) (s : String)
    (h : common.to_string m = Except.ok s) :
    common.from_str s = some m := by
  cases m with
  | Request r =>
    cases r with
    | Play p =>
      cases p
      simp only [common.to_string, common.serialize_request,
        common.serialize_play_req, Except.ok.injEq] at h
      subst h
      decide
    | Shutdown =>
      simp only [common.to_string, common.serialize_request,
        Except.ok.injEq] at h
      subst h
      decide
  | Response r =>
    cases r
    simp only [common.to_string, common.serialize_response,
      Except.ok.injEq] at h
    subst h
    decide

/-- C5 witness: the Shutdown request round-trips through its wire string. -/
theorem c5_message_roundtrip_witness :
    common.from_str "\x7b\"Request\":\"Shutdown\"\x7d" =
      some (common.Message.Request common.Request.Shutdown) :=
  c5_message_roundtrip (common.Message.Request common.Request.Shutdown) _ rfl

/-- C6: whenever message construction succeeded and the first event the
client main flow receives from the mailbox is not `Open`, the flow fails
with `ClientError::NoOpen` carrying that event, and no send attempt is made
on the connection (the only effect is the connection object's creation). -/
theorem c6_no_open_failure (command : cmdline.Client)
    (message : common.Message) (sender : Option Nat) (e : common.WSMsg)
    (rest : List common.WSMsg)
    (hmsg : client.make_message command = Except.ok message)
    (hne : e ≠ common.WSMsg.Open) :
    client.main command sender (e :: rest) =
      (Except.error (client.ClientError.NoOpen e),
       [client.CEffect.connected]) := by
  cases e <;> simp_all [client.main]

/-- C6 witness: a Shutdown command whose first mailbox event is the
transport's `Shutdown` notification instead of `Open`. -/
theorem c6_no_open_failure_witness :
    client.main { command := .Shutdown } (some 0) [common.WSMsg.Shutdown] =
      (Except.error (client.ClientError.NoOpen common.WSMsg.Shutdown),
       [client.CEffect.connected]) :=
  c6_no_open_failure { command := .Shutdown } (common.Message.Request .Shutdown)
    (some 0) common.WSMsg.Shutdown [] rfl (by decide)

/-- C7: processing `Request::Play` completes with `Response::Ok` whose
shutdown flag is unset, so no close is issued on that connection (the only
emitted event is the response on the originating handle) and the worker loop
goes on to receive the remaining queued requests. -/
theorem c7_play_keeps_connection_open (p : common.PlayReq) (c s : Nat)
    (rest : List common.ServerRequest) (st : server.PlayerThread)
    (cc : server.CallCompletion) :
    (server.ResponseWrapper.new common.Response.Ok).shutdown = false
    ∧ server.PlayerThread.on_remote_call st (common.Request.Play p) cc =
        (st, [server.SEvent.sent cc.sender
          (common.Message.Response common.Response.Ok)])
    ∧ server.PlayerThread.run
          ({ request := common.Request.Play p, conn_id := c, sender := s } :: rest) =
        server.SEvent.sent s (common.Message.Response common.Response.Ok) ::
          server.PlayerThread.runLoop server.PlayerThread.new (some s) rest := by
  refine ⟨rfl, rfl, ?_⟩
  exact server.runLoop_cons_play server.PlayerThread.new none
    { request := common.Request.Play p, conn_id := c, sender := s } rest p rfl rfl

/-- C8: each of the reserved commands Pause, Queue and Status is rejected by
`make_message` with a `Generic("Not Implemented")` error, and the client main
flow then fails before any network activity: the connection is never created
and nothing is sent (the effect list is empty). -/
theorem c8_unimplemented_rejected_locally (command : cmdline.Client)
    (sender : Option Nat) (events : List common.WSMsg)
    (h : command.command.isUnimplemented = true) :
    client.make_message command =
      Except.error (client.ClientError.Generic "Not Implemented")
    ∧ client.main command sender events =
        (Except.error (client.ClientError.Generic "Not Implemented"), []) := by
  obtain ⟨cmd⟩ := command
  cases cmd <;>
    simp_all [cmdline.ClientCommand.isUnimplemented, client.make_message,
      client.main]

/-- C8 witness: the Pause command. -/
theorem c8_unimplemented_rejected_locally_witness :
    client.make_message { command := cmdline.ClientCommand.Pause } =
      Except.error (client.ClientError.Generic "Not Implemented")
    ∧ client.main { command := cmdline.ClientCommand.Pause } none [] =
        (Except.error (client.ClientError.Generic "Not Implemented"), []) :=
  c8_unimplemented_rejected_locally { command := cmdline.ClientCommand.Pause }
    none [] rfl

/-- C9: serialization succeeds for every `Message` value, so the panic branch
inside `send_json_message` is unreachable: the outcome is always a sent
frame. -/
theorem c9_serialization_total (m : common.Message) :
    (∃ s, common.to_string m = Except.ok s)
    ∧ common.send_json_message m ≠ common.SendOutcome.panicked := by
  cases m with
  | Request r =>
    cases r with
    | Play p => cases p; exact ⟨⟨_, rfl⟩, by decide⟩
    | Shutdown => exact ⟨⟨_, rfl⟩, by decide⟩
  | Response r =>
    cases r
    exact ⟨⟨_, rfl⟩, by decide⟩

/-- C10: calling `Client::send` while the shared send-handle slot still holds
`None` (before the websocket handshake installed it) returns `Ok(())` and has
no effect: nothing is transmitted and no error is reported. -/
theorem c10_send_without_handle_silent (message : common.Message) :
    client.Client.send none message =
      (Except.ok (), ([] : List client.CEffect)) := rfl

end MusicalDoodle

section ScratchTests

open MusicalDoodle.common

example : to_string (Message.Request (Request.Play PlayReq.mk)) =
    .ok "\x7b\"Request\":\x7b\"Play\":null\x7d\x7d" := by rfl

example : from_str "\x7b\"Request\":\x7b\"Play\":null\x7d\x7d" =
    some (Message.Request (Request.Play PlayReq.mk)) := by decide

example : from_str "\x7b\"Request\":\"Shutdown\"\x7d" =
    some (Message.Request Request.Shutdown) := by decide

example : from_str "\x7b\"Response\":\"Ok\"\x7d" =
    some (Message.Response Response.Ok) := by decide

example : from_str "garbage" = none := by decide

example : from_str " \x7b \"Request\" : \"Shutdown\" \x7d " =
    some (Message.Request Request.Shutdown) := by decide

end ScratchTests
